import Mathlib

/-!
Shallow embedding of the authentication token lifecycle engine of the
`roda-auth-service` repository: the data model (`app/models`), the
repositories (`app/repositories/user_repository.py`), and the engine
(`app/services/auth_service.py`).  Machine time is modelled as a natural
number of seconds; database rows are lists of records.  The token codec and
password hashing live in `app/utils/security.py`, which is not part of the
source tree; they are modelled from the spec (section 4.1 and section 6) as
explicit parameters.
-/

namespace RodaAuth

/-- Claim set carried by a signed token: subject (`sub`, the user's id as a
string), the token kind (`"access"` or `"refresh"`), and the absolute
expiry instant. -/
structure TokenClaims where
  sub : String
  kind : String
  exp : Nat
deriving DecidableEq

/-- Modelled from the spec: the token codec of `app/utils/security.py` is not
under src/.  A codec environment maps each well-formed, correctly signed
token string to its embedded claim set; strings outside the map are
malformed or carry a bad signature. -/
abbrev CodecEnv := List (String × TokenClaims)

/-- Modelled from the spec: `verify_token(token, expected_kind)` of
`app/utils/security.py` is not under src/.  Per spec section 4.1,
`validate` fails if the signature does not verify or the token cannot be
parsed (the string is not in the environment), fails `WrongKind` if the
expected kind differs from the embedded kind, fails `Expired` if the current
time exceeds the embedded expiry, and returns the claim set otherwise.  It
is a pure function of the token, the expected kind and the current time. -/
def verify_token (env : CodecEnv) (token : String) (expectedKind : String)
    (now : Nat) : Option TokenClaims :=
  match env.lookup token with
  | none => none
  | some c => if c.kind = expectedKind ∧ now ≤ c.exp then some c else none

/-- A user row of `app/models/user_model.py`, restricted to the fields the
token engine reads or writes.  `updated_at` has `onupdate=func.now()`, so a
committed update of the row also refreshes `updated_at`. -/
structure User where
  id : String
  cedula : String
  password_hash : String
  role : String
  status : String
  is_verified : Bool
  last_login : Option Nat
  updated_at : Nat
deriving DecidableEq

/-- A refresh-token row of `app/models/refresh_token_model.py`.  The `token`
column has a unique index. -/
structure RefreshToken where
  user_id : String
  token : String
  expires_at : Nat
  is_revoked : Bool
  created_at : Nat
  created_by_ip : Option String
deriving DecidableEq

/-- An audit row as written by `AuditLogger.log_action`
(`app/utils/audit.py`).  `details` holds the serialized detail payload; the
engine only ever passes a cedula there, so it is modelled as that string. -/
structure AuditLog where
  user_id : Option String
  action : String
  resource : Option String
  details : Option String
  ip_address : Option String
  user_agent : Option String
deriving DecidableEq

/-- The configuration consumed by the engine (`app/config/settings.py`):
access-token TTL in minutes and refresh-token TTL in days. -/
structure Settings where
  access_token_expire_minutes : Nat
  refresh_token_expire_days : Nat
deriving DecidableEq

/-- The payload of a successful login or refresh
(`app/schemas/user.py` `TokenResponse`). -/
structure TokenResponse where
  access_token : String
  refresh_token : String
  token_type : String
  expires_in : Nat
deriving DecidableEq

/-- The `(success, message, payload)` tuple returned by `login_user` and
`refresh_access_token`. -/
structure LoginResult where
  success : Bool
  message : String
  payload : Option TokenResponse
deriving DecidableEq

/-- The `(success, message)` tuple returned by `logout_user`. -/
structure LogoutResult where
  success : Bool
  message : String
deriving DecidableEq

/-- The `(success, message, payload)` tuple returned by the service-level
`verify_token`; the payload is the decoded claim set. -/
structure VerifyResult where
  success : Bool
  message : String
  payload : Option TokenClaims
deriving DecidableEq

/-- The persistent state the engine reads and writes: the `users` table, the
`refresh_tokens` table, and the append-only audit log. -/
structure EngineState where
  users : List User
  tokens : List RefreshToken
  audits : List AuditLog
deriving DecidableEq

/-- `UserRepository.get_user_by_cedula`: first user row whose cedula matches. -/
def get_user_by_cedula (users : List User) (cedula : String) : Option User :=
  users.find? (fun u => u.cedula == cedula)

/-- `UserRepository.get_user_by_id`: first user row whose id matches. -/
def get_user_by_id (users : List User) (user_id : String) : Option User :=
  users.find? (fun u => u.id == user_id)

/-- `UserRepository.authenticate_user`: look the user up by cedula, then
check the secret against the stored hash.  `verify_password` lives in
`app/utils/security.py`, which is not under src/; it is modelled from the
spec (`verify_secret(user, plaintext) -> bool`, section 6) as the abstract
predicate `vp plaintext password_hash`. -/
def authenticate_user (vp : String → String → Bool) (users : List User)
    (cedula password : String) : Option User :=
  match get_user_by_cedula users cedula with
  | none => none
  | some u => if vp password u.password_hash then some u else none

/-- `UserRepository.update_last_login`: the source assigns
`user.last_login = user.updated_at` (the value read before the commit) and
commits; the `onupdate=func.now()` trigger then sets `updated_at` to the
current time.  A missing user leaves the table unchanged. -/
def update_last_login : List User → String → Nat → List User
  | [], _, _ => []
  | u :: us, user_id, now =>
    if u.id = user_id then
      { u with last_login := some u.updated_at, updated_at := now } :: us
    else
      u :: update_last_login us user_id now

/-- `RefreshTokenRepository.get_refresh_token`: first row whose token string
matches, with `is_revoked == False` and `expires_at > now`. -/
def get_refresh_token (tokens : List RefreshToken) (token : String)
    (now : Nat) : Option RefreshToken :=
  tokens.find? (fun r => r.token == token && !r.is_revoked && decide (now < r.expires_at))

/-- `RefreshTokenRepository.revoke_refresh_token`: find the first row whose
token string matches (regardless of its revoked state), set
`is_revoked = True` and return `True`; return `False` when no row exists. -/
def revoke_refresh_token : List RefreshToken → String → Bool × List RefreshToken
  | [], _ => (false, [])
  | r :: rs, token =>
    if r.token = token then (true, { r with is_revoked := true } :: rs)
    else
      let p := revoke_refresh_token rs token
      (p.1, r :: p.2)

/-- `RefreshTokenRepository.create_refresh_token`: insert a new row.  The
`token` column has a unique index, so inserting a duplicate token string
makes the commit raise; that fallible outcome is `none`. -/
def create_refresh_token (tokens : List RefreshToken) (row : RefreshToken) :
    Option (List RefreshToken) :=
  if tokens.any (fun r => r.token == row.token) then none
  else some (tokens ++ [row])

/-- `AuthService.login_user`.  The minted token strings come from
`create_access_token` / `create_refresh_token` of `app/utils/security.py`,
which is not under src/; modelled from the spec (random, unguessable
payload) as the parameters `minted_access` and `minted_refresh`.  A failed
insert of the refresh row raises and is converted by the broad `except` into
a generic failure with no state change. -/
def login_user (cfg : Settings) (vp : String → String → Bool)
    (s : EngineState) (cedula password : String)
    (ip ua : Option String) (minted_access minted_refresh : String)
    (now : Nat) : LoginResult × EngineState :=
  match authenticate_user vp s.users cedula password with
  | none =>
    ({ success := false, message := "Cédula o contraseña incorrecta", payload := none },
     { s with audits := s.audits ++
        [{ user_id := none, action := "login_failed", resource := some "user",
           details := some cedula, ip_address := ip, user_agent := ua }] })
  | some user =>
    match create_refresh_token s.tokens
      { user_id := user.id, token := minted_refresh,
        expires_at := now + cfg.refresh_token_expire_days * 86400,
        is_revoked := false, created_at := now, created_by_ip := ip } with
    | none => ({ success := false, message := "Error en login", payload := none }, s)
    | some tokens1 =>
      ({ success := true, message := "Login exitoso",
         payload := some
           { access_token := minted_access, refresh_token := minted_refresh,
             token_type := "bearer",
             expires_in := cfg.access_token_expire_minutes * 60 } },
       { users := update_last_login s.users user.id now,
         tokens := tokens1,
         audits := s.audits ++
           [{ user_id := some user.id, action := "login", resource := some "user",
              details := some user.cedula, ip_address := ip, user_agent := ua }] })

/-- `AuthService.refresh_access_token`.  Codec validation first, then the
store lookup, then the user lookup; on success the presented token is
revoked and the freshly minted refresh row is inserted.  A duplicate insert
of the new row raises after the revoke has already been committed. -/
def refresh_access_token (cfg : Settings) (env : CodecEnv)
    (s : EngineState) (refresh_token : String) (ip : Option String)
    (new_access new_refresh : String) (now : Nat) :
    LoginResult × EngineState :=
  match verify_token env refresh_token "refresh" now with
  | none =>
    ({ success := false, message := "Refresh token inválido o expirado", payload := none }, s)
  | some token_data =>
    match get_refresh_token s.tokens refresh_token now with
    | none =>
      ({ success := false, message := "Refresh token no encontrado", payload := none }, s)
    | some _ =>
      match get_user_by_id s.users token_data.sub with
      | none =>
        ({ success := false, message := "Usuario no encontrado", payload := none }, s)
      | some user =>
        match create_refresh_token (revoke_refresh_token s.tokens refresh_token).2
          { user_id := user.id, token := new_refresh,
            expires_at := now + cfg.refresh_token_expire_days * 86400,
            is_revoked := false, created_at := now, created_by_ip := ip } with
        | none =>
          ({ success := false, message := "Error renovando token", payload := none },
           { s with tokens := (revoke_refresh_token s.tokens refresh_token).2 })
        | some tokens2 =>
          ({ success := true, message := "Token renovado exitosamente",
             payload := some
               { access_token := new_access, refresh_token := new_refresh,
                 token_type := "bearer",
                 expires_in := cfg.access_token_expire_minutes * 60 } },
           { s with tokens := tokens2 })

/-- `AuthService.logout_user`: validate the access token (kind `"access"`),
then best-effort revoke the supplied refresh token (its return value is
discarded), then append the `logout` audit entry. -/
def logout_user (env : CodecEnv) (s : EngineState)
    (access_token : String) (refresh_token : Option String)
    (ip : Option String) (now : Nat) : LogoutResult × EngineState :=
  match verify_token env access_token "access" now with
  | none => ({ success := false, message := "Token inválido" }, s)
  | some token_data =>
    ({ success := true, message := "Logout exitoso" },
     { s with
       tokens :=
         (match refresh_token with
          | none => s.tokens
          | some rt => (revoke_refresh_token s.tokens rt).2)
       audits := s.audits ++
         [{ user_id := some token_data.sub, action := "logout",
            resource := some "user", details := none, ip_address := ip,
            user_agent := none }] })

/-- `AuthService.verify_token`: validate the access token via the codec,
then re-resolve the user by the subject claim; no state is changed. -/
def verify_token_service (env : CodecEnv) (s : EngineState) (token : String)
    (now : Nat) : VerifyResult × EngineState :=
  match verify_token env token "access" now with
  | none => ({ success := false, message := "Token inválido o expirado", payload := none }, s)
  | some token_data =>
    match get_user_by_id s.users token_data.sub with
    | none => ({ success := false, message := "Usuario no encontrado", payload := none }, s)
    | some _ => ({ success := true, message := "Token válido", payload := some token_data }, s)

/-- One invocation of an engine operation, with its inputs, its minted token
strings where applicable, and the time at which it runs. -/
inductive Op where
  | login (cedula password : String) (ip ua : Option String)
      (minted_access minted_refresh : String) (now : Nat)
  | refresh (token : String) (ip : Option String)
      (new_access new_refresh : String) (now : Nat)
  | logout (access_token : String) (refresh_token : Option String)
      (ip : Option String) (now : Nat)
  | verify (token : String) (now : Nat)

/-- The state transition performed by one engine operation. -/
def step (cfg : Settings) (env : CodecEnv) (vp : String → String → Bool)
    (s : EngineState) : Op → EngineState
  | Op.login c p ip ua ma mr now => (login_user cfg vp s c p ip ua ma mr now).2
  | Op.refresh t ip na nr now => (refresh_access_token cfg env s t ip na nr now).2
  | Op.logout a r ip now => (logout_user env s a r ip now).2
  | Op.verify t now => (verify_token_service env s t now).2

/-- Run a sequence of engine operations from a state. -/
def run (cfg : Settings) (env : CodecEnv) (vp : String → String → Bool)
    (s : EngineState) (ops : List Op) : EngineState :=
  ops.foldl (step cfg env vp) s

/-!
Fine-grained model of one in-flight `refresh_access_token` call, for
reasoning about two such calls interleaving.  Per spec section 5 the store
accesses are the suspension points and codec operations are pure, so each
phase below performs one store access (the codec check rides along with the
first store read). -/

/-- How far an in-flight refresh call has progressed. -/
inductive ThreadPhase where
  | ready
  | gotRow (sub : String)
  | gotUser (user : User)
  | revokedOld (user : User)
  | finished (r : LoginResult)
deriving DecidableEq

/-- An in-flight refresh call: its inputs plus its progress. -/
structure RefreshThread where
  tok : String
  ip : Option String
  new_access : String
  new_refresh : String
  now : Nat
  phase : ThreadPhase
deriving DecidableEq

/-- Mark an in-flight refresh call as finished with the given result. -/
def thread_finish (t : RefreshThread) (r : LoginResult) : RefreshThread :=
  { t with phase := ThreadPhase.finished r }

/-- One atomic step of an in-flight refresh call against the shared
`refresh_tokens` table; mirrors `refresh_access_token` phase by phase. -/
def thread_step (cfg : Settings) (env : CodecEnv) (users : List User)
    (tokens : List RefreshToken) (t : RefreshThread) :
    RefreshThread × List RefreshToken :=
  match t.phase with
  | ThreadPhase.ready =>
    match verify_token env t.tok "refresh" t.now with
    | none =>
      (thread_finish t
        { success := false, message := "Refresh token inválido o expirado", payload := none },
       tokens)
    | some c =>
      match get_refresh_token tokens t.tok t.now with
      | none =>
        (thread_finish t
          { success := false, message := "Refresh token no encontrado", payload := none },
         tokens)
      | some _ => ({ t with phase := ThreadPhase.gotRow c.sub }, tokens)
  | ThreadPhase.gotRow sub =>
    match get_user_by_id users sub with
    | none =>
      (thread_finish t
        { success := false, message := "Usuario no encontrado", payload := none },
       tokens)
    | some u => ({ t with phase := ThreadPhase.gotUser u }, tokens)
  | ThreadPhase.gotUser u =>
    ({ t with phase := ThreadPhase.revokedOld u }, (revoke_refresh_token tokens t.tok).2)
  | ThreadPhase.revokedOld u =>
    let row : RefreshToken :=
      { user_id := u.id, token := t.new_refresh,
        expires_at := t.now + cfg.refresh_token_expire_days * 86400,
        is_revoked := false, created_at := t.now, created_by_ip := t.ip }
    match create_refresh_token tokens row with
    | none =>
      (thread_finish t
        { success := false, message := "Error renovando token", payload := none },
       tokens)
    | some ts =>
      (thread_finish t
        { success := true, message := "Token renovado exitosamente",
          payload := some
            { access_token := t.new_access, refresh_token := t.new_refresh,
              token_type := "bearer",
              expires_in := cfg.access_token_expire_minutes * 60 } },
       ts)
  | ThreadPhase.finished _ => (t, tokens)

/-- Run two in-flight refresh calls under a schedule: `true` steps the
first thread, `false` the second. -/
def run_interleaved (cfg : Settings) (env : CodecEnv) (users : List User) :
    List Bool → List RefreshToken → RefreshThread → RefreshThread →
    RefreshThread × RefreshThread × List RefreshToken
  | [], tokens, a, b => (a, b, tokens)
  | c :: cs, tokens, a, b =>
    if c then
      let p := thread_step cfg env users tokens a
      run_interleaved cfg env users cs p.2 p.1 b
    else
      let p := thread_step cfg env users tokens b
      run_interleaved cfg env users cs p.2 a p.1

/-- Whether an in-flight refresh call has finished successfully. -/
def thread_success (t : RefreshThread) : Bool :=
  match t.phase with
  | ThreadPhase.finished r => r.success
  | _ => false

/-- A refresh-token row evolves legally when every column is unchanged
except that `is_revoked` may go from `false` to `true`. -/
def rowEvolves (r r' : RefreshToken) : Prop :=
  r'.token = r.token ∧ r'.user_id = r.user_id ∧ r'.expires_at = r.expires_at ∧
  r'.created_at = r.created_at ∧ r'.created_by_ip = r.created_by_ip ∧
  (r.is_revoked = true → r'.is_revoked = true)

/-- The `refresh_tokens` table evolves legally when every old row is still
present (in place, legally evolved) and new rows are only appended. -/
def storeEvolves (old new : List RefreshToken) : Prop :=
  ∃ core ext, new = core ++ ext ∧ List.Forall₂ rowEvolves old core

/-- A token string is dead in the table: some row carries it (so the unique
index blocks any re-insert) and every row carrying it is revoked (so
`lookup_active` can never return it). -/
def DeadTok (t : String) (tokens : List RefreshToken) : Prop :=
  (∃ r ∈ tokens, r.token = t) ∧ ∀ r ∈ tokens, r.token = t → r.is_revoked = true

/-! Concrete fixtures used to instantiate theorems with hypotheses and to
exhibit counterexamples. -/

/-- A sample configuration: 30-minute access tokens, 7-day refresh tokens. -/
def sampleSettings : Settings :=
  { access_token_expire_minutes := 30, refresh_token_expire_days := 7 }

/-- A sample user row. -/
def sampleUser : User :=
  { id := "u1", cedula := "12345678", password_hash := "secret",
    role := "customer", status := "active", is_verified := true,
    last_login := none, updated_at := 5 }

/-- A sample persisted refresh-token row for `sampleUser`. -/
def sampleRow : RefreshToken :=
  { user_id := "u1", token := "rt1", expires_at := 900, is_revoked := false,
    created_at := 0, created_by_ip := none }

/-- A sample codec environment: a refresh token `"rt1"` and an access token
`"at1"` for `sampleUser`, both expiring at instant 600. -/
def sampleEnv : CodecEnv :=
  [("rt1", { sub := "u1", kind := "refresh", exp := 600 }),
   ("at1", { sub := "u1", kind := "access", exp := 600 })]

/-- A sample engine state holding `sampleUser` and `sampleRow`. -/
def sampleState : EngineState :=
  { users := [sampleUser], tokens := [sampleRow], audits := [] }

/-- A sample password check: the hash is the plaintext itself. -/
def samplePwCheck (plaintext hash : String) : Bool := plaintext == hash

/-- A codec environment for the failure-message comparison: a refresh token
`"rtExp"` already past its embedded expiry at instant 50, and a refresh
token `"rtRev"` still codec-valid then. -/
def messageEnv : CodecEnv :=
  [("rtExp", { sub := "u1", kind := "refresh", exp := 10 }),
   ("rtRev", { sub := "u1", kind := "refresh", exp := 600 })]

/-- A store row for `"rtRev"` whose `is_revoked` flag is already set. -/
def revokedRow : RefreshToken :=
  { user_id := "u1", token := "rtRev", expires_at := 900, is_revoked := true,
    created_at := 0, created_by_ip := none }

/-- An engine state where `"rtRev"` is persisted but revoked. -/
def messageState : EngineState :=
  { users := [sampleUser], tokens := [revokedRow], audits := [] }

/-- A codec environment whose refresh token `"rtOrph"` belongs to the
subject `"u9"`, for whom no user row exists. -/
def orphanEnv : CodecEnv :=
  [("rtOrph", { sub := "u9", kind := "refresh", exp := 600 })]

/-- A persisted, active refresh-token row owned by `"u9"`. -/
def orphanRow : RefreshToken :=
  { user_id := "u9", token := "rtOrph", expires_at := 900, is_revoked := false,
    created_at := 0, created_by_ip := none }

/-- An engine state holding `orphanRow` but only the user `"u1"`. -/
def orphanState : EngineState :=
  { users := [sampleUser], tokens := [orphanRow], audits := [] }

/-- An engine state with no users at all. -/
def emptyState : EngineState := { users := [], tokens := [], audits := [] }

/-- Claim C8: on the fixture login at instant 100, the login succeeds but the
user's `last_login` becomes the stale `updated_at` value 5 — the code
assigns `user.last_login = user.updated_at` in
`UserRepository.update_last_login` instead of the login time. -/
theorem login_last_login_stale :
    (login_user sampleSettings samplePwCheck sampleState "12345678" "secret"
      none none "at1" "rtNew" 100).1.success = true ∧
    (get_user_by_id (login_user sampleSettings samplePwCheck sampleState "12345678" "secret"
      none none "at1" "rtNew" 100).2.users "u1").map User.last_login = some (some 5) ∧
    (get_user_by_id (login_user sampleSettings samplePwCheck sampleState "12345678" "secret"
      none none "at1" "rtNew" 100).2.users "u1").map User.last_login ≠ some (some 100) := by
  decide

/-- Claim C10: two interleaved refresh calls presenting the same token `"rt1"`
(both store lookups run before either revoke) both finish successfully —
the source's lookup-then-revoke is not an atomic check-and-set. -/
theorem concurrent_refresh_both_succeed :
    thread_success (run_interleaved sampleSettings sampleEnv [sampleUser]
      [true, false, true, true, true, false, false, false] [sampleRow]
      { tok := "rt1", ip := none, new_access := "a1", new_refresh := "a2",
        now := 10, phase := ThreadPhase.ready }
      { tok := "rt1", ip := none, new_access := "b1", new_refresh := "b2",
        now := 10, phase := ThreadPhase.ready }).1 = true ∧
    thread_success (run_interleaved sampleSettings sampleEnv [sampleUser]
      [true, false, true, true, true, false, false, false] [sampleRow]
      { tok := "rt1", ip := none, new_access := "a1", new_refresh := "a2",
        now := 10, phase := ThreadPhase.ready }
      { tok := "rt1", ip := none, new_access := "b1", new_refresh := "b2",
        now := 10, phase := ThreadPhase.ready }).2.1 = true := by
  decide

/-- Claim C3, counterexample: on a store holding exactly the row for `"rt1"`,
`revoke_refresh_token` returns `true` on the first call and `true` again on
the second call — not `false` — because it only checks that a row with that
token string exists, revoked or not. -/
theorem revoke_twice_returns_true_twice_cex :
    (revoke_refresh_token [sampleRow] "rt1").1 = true ∧
    (revoke_refresh_token (revoke_refresh_token [sampleRow] "rt1").2 "rt1").1 = true := by
  decide

/-- Claim C5, counterexample: two failing refresh calls, one with a codec-expired
token and one with a store-revoked but codec-valid token, return different
messages, so a caller can distinguish the two causes. -/
theorem refresh_messages_distinguish_cex :
    (refresh_access_token sampleSettings messageEnv messageState "rtExp" none "na" "nr" 50).1.success = false ∧
    (refresh_access_token sampleSettings messageEnv messageState "rtRev" none "na" "nr" 50).1.success = false ∧
    (refresh_access_token sampleSettings messageEnv messageState "rtExp" none "na" "nr" 50).1.message ≠
      (refresh_access_token sampleSettings messageEnv messageState "rtRev" none "na" "nr" 50).1.message := by
  decide

/-- Claim C1, counterexample: `"rt1"` is successfully rotated at instant 10, and a
later `refresh("rt1")` at instant 700 (past the codec expiry 600) fails, but
with the codec-rejection message rather than the `TokenNotFound` message. -/
theorem rotated_refresh_not_tokennotfound_cex :
    (refresh_access_token sampleSettings sampleEnv sampleState "rt1" none "at2" "rt2" 10).1.success = true ∧
    (refresh_access_token sampleSettings sampleEnv
      (refresh_access_token sampleSettings sampleEnv sampleState "rt1" none "at2" "rt2" 10).2
      "rt1" none "at3" "rt3" 700).1.success = false ∧
    (refresh_access_token sampleSettings sampleEnv
      (refresh_access_token sampleSettings sampleEnv sampleState "rt1" none "at2" "rt2" 10).2
      "rt1" none "at3" "rt3" 700).1.message ≠ "Refresh token no encontrado" := by
  decide

/-! Helper lemmas about the repository operations. -/

theorem revoke_length (ts : List RefreshToken) (t : String) :
    (revoke_refresh_token ts t).2.length = ts.length := by
  induction ts with
  | nil => rfl
  | cons r rs ih => by_cases h : r.token = t <;> simp [revoke_refresh_token, h, ih]

theorem revoke_get? (ts : List RefreshToken) (t : String) (i : Nat) :
    ((revoke_refresh_token ts t).2.get? i = ts.get? i) ∨
    (∃ rr, ts.get? i = some rr ∧ rr.token = t ∧
      (revoke_refresh_token ts t).2.get? i = some { rr with is_revoked := true }) := by
  induction ts generalizing i with
  | nil => left; simp [revoke_refresh_token]
  | cons r rs ih =>
    by_cases h : r.token = t
    · cases i with
      | zero => right; exact ⟨r, by simp [revoke_refresh_token, h], h, by simp [revoke_refresh_token, h]⟩
      | succ n => left; simp [revoke_refresh_token, h]
    · cases i with
      | zero => left; simp [revoke_refresh_token, h]
      | succ n =>
        rcases ih n with hsame | ⟨rr, h1, h2, h3⟩
        · left; simpa [revoke_refresh_token, h] using hsame
        · right; exact ⟨rr, by simpa using h1, h2, by simpa [revoke_refresh_token, h] using h3⟩

theorem revoke_fst_true (ts : List RefreshToken) (t : String)
    (hex : ∃ r ∈ ts, r.token = t) : (revoke_refresh_token ts t).1 = true := by
  induction ts with
  | nil => simp at hex
  | cons r rs ih =>
    by_cases h : r.token = t
    · simp [revoke_refresh_token, h]
    · obtain ⟨x, hx, hxt⟩ := hex
      rcases List.mem_cons.mp hx with rfl | hx
      · exact absurd hxt h
      · simpa [revoke_refresh_token, h] using ih ⟨x, hx, hxt⟩

theorem revoke_exists_token (ts : List RefreshToken) (t t' : String)
    (hex : ∃ r ∈ ts, r.token = t) :
    ∃ r ∈ (revoke_refresh_token ts t').2, r.token = t := by
  induction ts with
  | nil => simp at hex
  | cons r rs ih =>
    obtain ⟨x, hx, hxt⟩ := hex
    by_cases h : r.token = t'
    · rcases List.mem_cons.mp hx with rfl | hx
      · exact ⟨{ x with is_revoked := true }, by simp [revoke_refresh_token, h], hxt⟩
      · exact ⟨x, by simp [revoke_refresh_token, h, hx], hxt⟩
    · rcases List.mem_cons.mp hx with rfl | hx
      · exact ⟨x, by simp [revoke_refresh_token, h], hxt⟩
      · obtain ⟨y, hy, hyt⟩ := ih ⟨x, hx, hxt⟩
        exact ⟨y, by simp [revoke_refresh_token, h, hy], hyt⟩

theorem revoke_all_of_nodup (ts : List RefreshToken) (t : String)
    (hnd : (ts.map RefreshToken.token).Nodup) :
    ∀ x ∈ (revoke_refresh_token ts t).2, x.token = t → x.is_revoked = true := by
  induction ts with
  | nil => intro x hx; simp [revoke_refresh_token] at hx
  | cons r rs ih =>
    rw [List.map_cons, List.nodup_cons] at hnd
    intro x hx hxt
    by_cases h : r.token = t
    · simp only [revoke_refresh_token, h, if_pos] at hx
      rcases List.mem_cons.mp hx with rfl | hx
      · rfl
      · have hmem : x.token ∈ rs.map RefreshToken.token :=
          List.mem_map_of_mem RefreshToken.token hx
        rw [hxt, ← h] at hmem
        exact absurd hmem hnd.1
    · simp only [revoke_refresh_token, h, if_neg, not_false_iff] at hx
      rcases List.mem_cons.mp hx with rfl | hx
      · exact absurd hxt h
      · exact ih hnd.2 x hx hxt

theorem revoke_preserves_all_revoked (ts : List RefreshToken) (t t' : String)
    (hall : ∀ r ∈ ts, r.token = t → r.is_revoked = true) :
    ∀ x ∈ (revoke_refresh_token ts t').2, x.token = t → x.is_revoked = true := by
  induction ts with
  | nil => intro x hx; simp [revoke_refresh_token] at hx
  | cons r rs ih =>
    intro x hx hxt
    by_cases h : r.token = t'
    · simp only [revoke_refresh_token, h, if_pos] at hx
      rcases List.mem_cons.mp hx with rfl | hx
      · rfl
      · exact hall x (List.mem_cons_of_mem r hx) hxt
    · simp only [revoke_refresh_token, h, if_neg, not_false_iff] at hx
      rcases List.mem_cons.mp hx with rfl | hx
      · exact hall x (List.mem_cons_self ..) hxt
      · exact ih (fun y hy => hall y (List.mem_cons_of_mem r hy)) x hx hxt

theorem lookup_none_of_all_revoked (ts : List RefreshToken) (t : String) (now : Nat)
    (hall : ∀ r ∈ ts, r.token = t → r.is_revoked = true) :
    get_refresh_token ts t now = none := by
  unfold get_refresh_token
  rw [List.find?_eq_none]
  intro r hr hcontra
  simp only [Bool.and_eq_true, beq_iff_eq, Bool.not_eq_true'] at hcontra
  obtain ⟨⟨h1, h2⟩, _⟩ := hcontra
  rw [hall r hr h1] at h2
  exact Bool.noConfusion h2

theorem create_some (ts ts' : List RefreshToken) (row : RefreshToken)
    (h : create_refresh_token ts row = some ts') : ts' = ts ++ [row] := by
  unfold create_refresh_token at h
  split at h
  · cases h
  · cases h; rfl

theorem rowEvolves_refl (r : RefreshToken) : rowEvolves r r :=
  ⟨rfl, rfl, rfl, rfl, rfl, fun h => h⟩

theorem storeEvolves_refl (ts : List RefreshToken) : storeEvolves ts ts :=
  ⟨ts, [], by simp, List.forall₂_same.mpr fun r _ => rowEvolves_refl r⟩

theorem storeEvolves_append (old new more : List RefreshToken)
    (h : storeEvolves old new) : storeEvolves old (new ++ more) := by
  obtain ⟨core, ext, rfl, hf⟩ := h
  exact ⟨core, ext ++ more, by simp, hf⟩

theorem storeEvolves_revoke (ts : List RefreshToken) (t : String) :
    storeEvolves ts (revoke_refresh_token ts t).2 := by
  induction ts with
  | nil => exact storeEvolves_refl []
  | cons r rs ih =>
    by_cases h : r.token = t
    · refine ⟨{ r with is_revoked := true } :: rs, [], by simp [revoke_refresh_token, h], ?_⟩
      exact List.Forall₂.cons ⟨rfl, rfl, rfl, rfl, rfl, fun _ => rfl⟩
        (List.forall₂_same.mpr fun x _ => rowEvolves_refl x)
    · obtain ⟨core, ext, heq, hf⟩ := ih
      exact ⟨r :: core, ext, by simp [revoke_refresh_token, h, heq],
        List.Forall₂.cons (rowEvolves_refl r) hf⟩

/-! Lemmas about dead token strings. -/

theorem deadTok_revoke (t t' : String) (ts : List RefreshToken)
    (h : DeadTok t ts) : DeadTok t (revoke_refresh_token ts t').2 :=
  ⟨revoke_exists_token ts t t' h.1, revoke_preserves_all_revoked ts t t' h.2⟩

theorem deadTok_append (t : String) (ts : List RefreshToken) (row : RefreshToken)
    (h : DeadTok t ts) (hrow : row.token ≠ t) : DeadTok t (ts ++ [row]) := by
  obtain ⟨⟨r, hr, hrt⟩, hall⟩ := h
  refine ⟨⟨r, List.mem_append_left _ hr, hrt⟩, ?_⟩
  intro x hx hxt
  rcases List.mem_append.mp hx with hx | hx
  · exact hall x hx hxt
  · simp only [List.mem_singleton] at hx
    subst hx
    exact absurd hxt hrow

theorem deadTok_create (t : String) (ts ts' : List RefreshToken) (row : RefreshToken)
    (h : DeadTok t ts) (hc : create_refresh_token ts row = some ts') :
    DeadTok t ts' := by
  unfold create_refresh_token at hc
  split at hc
  · cases hc
  · rename_i hany
    cases hc
    refine deadTok_append t ts row h ?_
    intro heq
    obtain ⟨r, hr, hrt⟩ := h.1
    exact hany (List.any_eq_true.mpr ⟨r, hr, by simp [hrt, heq]⟩)

theorem deadTok_step (cfg : Settings) (env : CodecEnv) (vp : String → String → Bool)
    (t : String) (s : EngineState) (op : Op) (h : DeadTok t s.tokens) :
    DeadTok t (step cfg env vp s op).tokens := by
  cases op with
  | login c p ip ua ma mr now =>
    simp only [step, login_user]
    split
    · exact h
    · split
      · exact h
      · rename_i heq
        exact deadTok_create t s.tokens _ _ h heq
  | refresh t' ip na nr now =>
    simp only [step, refresh_access_token]
    split
    · exact h
    · split
      · exact h
      · split
        · exact h
        · split
          · exact deadTok_revoke t t' s.tokens h
          · rename_i heq
            exact deadTok_create t _ _ _ (deadTok_revoke t t' s.tokens h) heq
  | logout a r ip now =>
    simp only [step, logout_user]
    split
    · exact h
    · cases r with
      | none => exact h
      | some rt => exact deadTok_revoke t rt s.tokens h
  | verify tk now =>
    simp only [step, verify_token_service]
    split
    · exact h
    · split
      · exact h
      · exact h

theorem deadTok_run (cfg : Settings) (env : CodecEnv) (vp : String → String → Bool)
    (t : String) (s : EngineState) (ops : List Op) (h : DeadTok t s.tokens) :
    DeadTok t (run cfg env vp s ops).tokens := by
  induction ops generalizing s with
  | nil => exact h
  | cons op rest ih => exact ih _ (deadTok_step cfg env vp t s op h)

theorem refresh_success_deadTok (cfg : Settings) (env : CodecEnv) (s : EngineState)
    (t : String) (ip : Option String) (na nr : String) (now : Nat)
    (hnd : (s.tokens.map RefreshToken.token).Nodup)
    (hs : (refresh_access_token cfg env s t ip na nr now).1.success = true) :
    DeadTok t (refresh_access_token cfg env s t ip na nr now).2.tokens := by
  unfold refresh_access_token at hs ⊢
  cases hv : verify_token env t "refresh" now with
  | none => simp [hv] at hs
  | some c =>
    simp only [hv] at hs ⊢
    cases hl : get_refresh_token s.tokens t now with
    | none => simp [hl] at hs
    | some row =>
      simp only [hl] at hs ⊢
      cases hu : get_user_by_id s.users c.sub with
      | none => simp [hu] at hs
      | some user =>
        simp only [hu] at hs ⊢
        cases hc : create_refresh_token (revoke_refresh_token s.tokens t).2
            { user_id := user.id, token := nr,
              expires_at := now + cfg.refresh_token_expire_days * 86400,
              is_revoked := false, created_at := now, created_by_ip := ip } with
        | none => simp [hc] at hs
        | some tokens2 =>
          simp only [hc]
          have hrowt : ∃ r ∈ s.tokens, r.token = t := by
            rw [get_refresh_token] at hl
            have hp := List.find?_some hl
            simp only [Bool.and_eq_true, beq_iff_eq] at hp
            exact ⟨row, List.mem_of_find?_eq_some hl, hp.1.1⟩
          exact deadTok_create t _ tokens2 _
            ⟨revoke_exists_token s.tokens t t hrowt, revoke_all_of_nodup s.tokens t hnd⟩ hc

/-- Claim C1, amended: once `refresh(t)` has rotated `t` successfully, every later
`refresh(t)` — after any further sequence of engine operations — fails, and
whenever the codec still accepts `t` the failure is the `TokenNotFound`
message; the token is single-use. -/
theorem refresh_single_use (cfg : Settings) (env : CodecEnv) (vp : String → String → Bool)
    (s : EngineState) (t : String) (ip : Option String) (na nr : String) (now : Nat)
    (ops : List Op) (ip' : Option String) (na' nr' : String) (now' : Nat)
    (hnd : (s.tokens.map RefreshToken.token).Nodup)
    (hs : (refresh_access_token cfg env s t ip na nr now).1.success = true) :
    (refresh_access_token cfg env
        (run cfg env vp (refresh_access_token cfg env s t ip na nr now).2 ops)
        t ip' na' nr' now').1.success = false ∧
    (verify_token env t "refresh" now' ≠ none →
      (refresh_access_token cfg env
          (run cfg env vp (refresh_access_token cfg env s t ip na nr now).2 ops)
          t ip' na' nr' now').1.message = "Refresh token no encontrado") := by
  have hdead : DeadTok t
      (run cfg env vp (refresh_access_token cfg env s t ip na nr now).2 ops).tokens :=
    deadTok_run cfg env vp t _ ops (refresh_success_deadTok cfg env s t ip na nr now hnd hs)
  have hlookup :
      get_refresh_token
        (run cfg env vp (refresh_access_token cfg env s t ip na nr now).2 ops).tokens
        t now' = none :=
    lookup_none_of_all_revoked _ t now' hdead.2
  generalize hS : run cfg env vp (refresh_access_token cfg env s t ip na nr now).2 ops = S
    at hlookup ⊢
  constructor
  · cases hv : verify_token env t "refresh" now' with
    | none => simp [refresh_access_token, hv]
    | some c => simp [refresh_access_token, hv, hlookup]
  · intro hne
    obtain ⟨c, hc⟩ := Option.ne_none_iff_exists'.mp hne
    simp [refresh_access_token, hc, hlookup]

/-- Witness for `refresh_single_use`: rotate `"rt1"` at instant 10, run a
verify call, then refresh `"rt1"` again at instant 20 while the codec still
accepts it. -/
theorem refresh_single_use_witness :
    (refresh_access_token sampleSettings sampleEnv
        (run sampleSettings sampleEnv samplePwCheck
          (refresh_access_token sampleSettings sampleEnv sampleState "rt1" none "at2" "rt2" 10).2
          [Op.verify "at1" 20])
        "rt1" none "at3" "rt3" 20).1.success = false ∧
    (refresh_access_token sampleSettings sampleEnv
        (run sampleSettings sampleEnv samplePwCheck
          (refresh_access_token sampleSettings sampleEnv sampleState "rt1" none "at2" "rt2" 10).2
          [Op.verify "at1" 20])
        "rt1" none "at3" "rt3" 20).1.message = "Refresh token no encontrado" :=
  ⟨(refresh_single_use sampleSettings sampleEnv samplePwCheck sampleState "rt1" none
      "at2" "rt2" 10 [Op.verify "at1" 20] none "at3" "rt3" 20 (by decide) (by decide)).1,
   (refresh_single_use sampleSettings sampleEnv samplePwCheck sampleState "rt1" none
      "at2" "rt2" 10 [Op.verify "at1" 20] none "at3" "rt3" 20 (by decide) (by decide)).2
     (by decide)⟩

/-- Claim C6: every engine operation (login, refresh, logout, verify) evolves the
`refresh_tokens` table legally: no row is deleted, every surviving row keeps
all its columns except that `is_revoked` may only go from `false` to `true`,
and new rows are only appended. -/
theorem engine_step_store_monotone (cfg : Settings) (env : CodecEnv)
    (vp : String → String → Bool) (s : EngineState) (op : Op) :
    storeEvolves s.tokens (step cfg env vp s op).tokens := by
  cases op with
  | login c p ip ua ma mr now =>
    simp only [step, login_user]
    split
    · exact storeEvolves_refl _
    · split
      · exact storeEvolves_refl _
      · rename_i heq
        rw [create_some _ _ _ heq]
        exact storeEvolves_append _ _ _ (storeEvolves_refl _)
  | refresh t ip na nr now =>
    simp only [step, refresh_access_token]
    split
    · exact storeEvolves_refl _
    · split
      · exact storeEvolves_refl _
      · split
        · exact storeEvolves_refl _
        · split
          · exact storeEvolves_revoke s.tokens t
          · rename_i heq
            rw [create_some _ _ _ heq]
            exact storeEvolves_append _ _ _ (storeEvolves_revoke s.tokens t)
  | logout a r ip now =>
    simp only [step, logout_user]
    split
    · exact storeEvolves_refl _
    · cases r with
      | none => exact storeEvolves_refl _
      | some rt => exact storeEvolves_revoke s.tokens rt
  | verify tk now =>
    simp only [step, verify_token_service]
    split
    · exact storeEvolves_refl _
    · split
      · exact storeEvolves_refl _
      · exact storeEvolves_refl _

/-- Claim C2: the refresh failure checks happen in codec-then-store-then-user
order — a codec rejection yields the `TokenInvalid` outcome whatever the
store holds; a codec-accepted token with no active store row yields the
`TokenNotFound` outcome; an active row whose subject resolves to no user
yields the `UserNotFound` outcome — and each of these failures returns the
state completely unchanged. -/
theorem refresh_failure_order (cfg : Settings) (env : CodecEnv) (s : EngineState)
    (t : String) (ip : Option String) (na nr : String) (now : Nat) :
    (verify_token env t "refresh" now = none →
      refresh_access_token cfg env s t ip na nr now =
        ({ success := false, message := "Refresh token inválido o expirado", payload := none }, s)) ∧
    (∀ c, verify_token env t "refresh" now = some c →
      get_refresh_token s.tokens t now = none →
      refresh_access_token cfg env s t ip na nr now =
        ({ success := false, message := "Refresh token no encontrado", payload := none }, s)) ∧
    (∀ c, verify_token env t "refresh" now = some c →
      get_refresh_token s.tokens t now ≠ none →
      get_user_by_id s.users c.sub = none →
      refresh_access_token cfg env s t ip na nr now =
        ({ success := false, message := "Usuario no encontrado", payload := none }, s)) := by
  refine ⟨fun h => ?_, fun c hc hl => ?_, fun c hc hl hu => ?_⟩
  · simp [refresh_access_token, h]
  · simp [refresh_access_token, hc, hl]
  · obtain ⟨row, hrow⟩ := Option.ne_none_iff_exists'.mp hl
    simp [refresh_access_token, hc, hrow, hu]

/-- Witness for `refresh_failure_order`: a never-issued token, a revoked
token and an orphaned token each hit their respective branch. -/
theorem refresh_failure_order_witness :
    refresh_access_token sampleSettings messageEnv messageState "ghost" none "na" "nr" 50 =
      ({ success := false, message := "Refresh token inválido o expirado", payload := none },
       messageState) ∧
    refresh_access_token sampleSettings messageEnv messageState "rtRev" none "na" "nr" 50 =
      ({ success := false, message := "Refresh token no encontrado", payload := none },
       messageState) ∧
    refresh_access_token sampleSettings orphanEnv orphanState "rtOrph" none "na" "nr" 50 =
      ({ success := false, message := "Usuario no encontrado", payload := none },
       orphanState) :=
  ⟨(refresh_failure_order sampleSettings messageEnv messageState "ghost" none "na" "nr" 50).1
      (by decide),
   (refresh_failure_order sampleSettings messageEnv messageState "rtRev" none "na" "nr" 50).2.1
      { sub := "u1", kind := "refresh", exp := 600 } (by decide) (by decide),
   (refresh_failure_order sampleSettings orphanEnv orphanState "rtOrph" none "na" "nr" 50).2.2
      { sub := "u9", kind := "refresh", exp := 600 } (by decide) (by decide) (by decide)⟩

/-- Claim C3, amended: for a token string with a persisted row (token strings are
unique), `revoke` returns `true` on the first call and `true` again on the
second call — it reports whether a row exists, and rows are never deleted —
and after either call `lookup_active` returns `none` at any time. -/
theorem revoke_idempotent_unusable (ts : List RefreshToken) (t : String) (now now2 : Nat)
    (hex : ∃ r ∈ ts, r.token = t)
    (hnd : (ts.map RefreshToken.token).Nodup) :
    (revoke_refresh_token ts t).1 = true ∧
    (revoke_refresh_token (revoke_refresh_token ts t).2 t).1 = true ∧
    get_refresh_token (revoke_refresh_token ts t).2 t now = none ∧
    get_refresh_token (revoke_refresh_token (revoke_refresh_token ts t).2 t).2 t now2 = none := by
  have hall := revoke_all_of_nodup ts t hnd
  refine ⟨revoke_fst_true ts t hex, ?_, ?_, ?_⟩
  · exact revoke_fst_true _ t (revoke_exists_token ts t t hex)
  · exact lookup_none_of_all_revoked _ t now hall
  · exact lookup_none_of_all_revoked _ t now2
      (revoke_preserves_all_revoked _ t t hall)

/-- Witness for `revoke_idempotent_unusable` on the store holding exactly
`sampleRow`. -/
theorem revoke_idempotent_unusable_witness :
    (revoke_refresh_token [sampleRow] "rt1").1 = true ∧
    (revoke_refresh_token (revoke_refresh_token [sampleRow] "rt1").2 "rt1").1 = true ∧
    get_refresh_token (revoke_refresh_token [sampleRow] "rt1").2 "rt1" 500 = none ∧
    get_refresh_token
      (revoke_refresh_token (revoke_refresh_token [sampleRow] "rt1").2 "rt1").2 "rt1" 600 = none :=
  revoke_idempotent_unusable [sampleRow] "rt1" 500 600
    ⟨sampleRow, by decide, by decide⟩ (by decide)

/-- Claim C4: a login with an unknown cedula and a login with a known cedula but a
wrong secret return the very same `(success, message, payload)` outcome — a
failure with no payload — and each appends an audit entry whose action is
`login_failed` and whose user id is `none`. -/
theorem login_failure_indistinguishable (cfg : Settings) (vp : String → String → Bool)
    (s1 s2 : EngineState) (c1 p1 c2 p2 : String) (ip1 ua1 ip2 ua2 : Option String)
    (ma1 mr1 ma2 mr2 : String) (now1 now2 : Nat)
    (h1 : get_user_by_cedula s1.users c1 = none)
    (h2 : ∃ u, get_user_by_cedula s2.users c2 = some u ∧ vp p2 u.password_hash = false) :
    (login_user cfg vp s1 c1 p1 ip1 ua1 ma1 mr1 now1).1 =
      (login_user cfg vp s2 c2 p2 ip2 ua2 ma2 mr2 now2).1 ∧
    (login_user cfg vp s1 c1 p1 ip1 ua1 ma1 mr1 now1).1.success = false ∧
    (login_user cfg vp s1 c1 p1 ip1 ua1 ma1 mr1 now1).1.payload = none ∧
    (login_user cfg vp s1 c1 p1 ip1 ua1 ma1 mr1 now1).2.audits =
      s1.audits ++ [{ user_id := none, action := "login_failed", resource := some "user",
                      details := some c1, ip_address := ip1, user_agent := ua1 }] ∧
    (login_user cfg vp s2 c2 p2 ip2 ua2 ma2 mr2 now2).2.audits =
      s2.audits ++ [{ user_id := none, action := "login_failed", resource := some "user",
                      details := some c2, ip_address := ip2, user_agent := ua2 }] := by
  obtain ⟨u, hu, hv⟩ := h2
  refine ⟨?_, ?_, ?_, ?_, ?_⟩ <;>
    simp [login_user, authenticate_user, h1, hu, hv]

/-- Witness for `login_failure_indistinguishable`: an unknown cedula against
an empty user table versus a wrong password for `sampleUser`. -/
theorem login_failure_indistinguishable_witness :
    (login_user sampleSettings samplePwCheck emptyState "999" "x" none none "a" "r" 1).1 =
      (login_user sampleSettings samplePwCheck sampleState "12345678" "wrong" none none "a" "r" 2).1 ∧
    (login_user sampleSettings samplePwCheck emptyState "999" "x" none none "a" "r" 1).1.success = false ∧
    (login_user sampleSettings samplePwCheck emptyState "999" "x" none none "a" "r" 1).1.payload = none ∧
    (login_user sampleSettings samplePwCheck emptyState "999" "x" none none "a" "r" 1).2.audits =
      emptyState.audits ++
        [{ user_id := none, action := "login_failed", resource := some "user",
           details := some "999", ip_address := none, user_agent := none }] ∧
    (login_user sampleSettings samplePwCheck sampleState "12345678" "wrong" none none "a" "r" 2).2.audits =
      sampleState.audits ++
        [{ user_id := none, action := "login_failed", resource := some "user",
           details := some "12345678", ip_address := none, user_agent := none }] :=
  login_failure_indistinguishable sampleSettings samplePwCheck emptyState sampleState
    "999" "x" "12345678" "wrong" none none none none "a" "r" "a" "r" 1 2
    (by decide) ⟨sampleUser, by decide, by decide⟩

/-- Claim C5, amended: failing refresh calls return one and the same message for
every codec-rejected token — covering expired and never-issued alike — but
the distinct `TokenNotFound` message for a codec-valid token with no active
store row (so store-side revocation is distinguishable from the other two
causes), and failing verify calls return one generic message for every
codec-rejected access token. -/
theorem failure_message_taxonomy (cfg : Settings) (env : CodecEnv) (s : EngineState)
    (t1 t2 t3 : String) (ip : Option String) (na nr : String) (now : Nat) :
    (verify_token env t1 "refresh" now = none →
      (refresh_access_token cfg env s t1 ip na nr now).1.message =
        "Refresh token inválido o expirado") ∧
    (∀ c, verify_token env t2 "refresh" now = some c →
      get_refresh_token s.tokens t2 now = none →
      (refresh_access_token cfg env s t2 ip na nr now).1.message =
        "Refresh token no encontrado") ∧
    (verify_token env t3 "access" now = none →
      (verify_token_service env s t3 now).1.message = "Token inválido o expirado") := by
  refine ⟨fun h => ?_, fun c hc hl => ?_, fun h => ?_⟩
  · simp [refresh_access_token, h]
  · simp [refresh_access_token, hc, hl]
  · simp [verify_token_service, h]

/-- Witness for `failure_message_taxonomy`: the expired refresh token
`"rtExp"`, the revoked refresh token `"rtRev"` and a never-issued access
token `"ghost"`. -/
theorem failure_message_taxonomy_witness :
    (refresh_access_token sampleSettings messageEnv messageState "rtExp" none "na" "nr" 50).1.message =
      "Refresh token inválido o expirado" ∧
    (refresh_access_token sampleSettings messageEnv messageState "rtRev" none "na" "nr" 50).1.message =
      "Refresh token no encontrado" ∧
    (verify_token_service messageEnv messageState "ghost" 50).1.message =
      "Token inválido o expirado" :=
  ⟨(failure_message_taxonomy sampleSettings messageEnv messageState
      "rtExp" "rtRev" "ghost" none "na" "nr" 50).1 (by decide),
   (failure_message_taxonomy sampleSettings messageEnv messageState
      "rtExp" "rtRev" "ghost" none "na" "nr" 50).2.1
      { sub := "u1", kind := "refresh", exp := 600 } (by decide) (by decide),
   (failure_message_taxonomy sampleSettings messageEnv messageState
      "rtExp" "rtRev" "ghost" none "na" "nr" 50).2.2 (by decide)⟩

/-- Claim C7: a logout supplying refresh-token string `r` never touches the user
table, never changes the number of refresh-token rows, and leaves every row
unchanged except possibly a row whose token string equals `r`, which at most
has its `is_revoked` flag set; rows of other tokens — including other
sessions of the same user — are untouched. -/
theorem logout_frame (env : CodecEnv) (s : EngineState) (a r : String)
    (ip : Option String) (now : Nat) :
    (logout_user env s a (some r) ip now).2.users = s.users ∧
    (logout_user env s a (some r) ip now).2.tokens.length = s.tokens.length ∧
    ∀ i : Nat,
      ((logout_user env s a (some r) ip now).2.tokens.get? i = s.tokens.get? i) ∨
      (∃ rr, s.tokens.get? i = some rr ∧ rr.token = r ∧
        (logout_user env s a (some r) ip now).2.tokens.get? i =
          some { rr with is_revoked := true }) := by
  cases hv : verify_token env a "access" now with
  | none => refine ⟨?_, ?_, fun i => Or.inl ?_⟩ <;> simp [logout_user, hv]
  | some c =>
    refine ⟨?_, ?_, fun i => ?_⟩
    · simp [logout_user, hv]
    · simp only [logout_user, hv]
      exact revoke_length s.tokens r
    · simp only [logout_user, hv]
      exact revoke_get? s.tokens r i

/-- Claim C9: when the access token validates for subject `c.sub` and the supplied
refresh-token string `r` has a persisted row owned by a different user, the
logout still succeeds and still revokes that row — ownership of the supplied
refresh token is never checked against the acting user. -/
theorem logout_ignores_ownership (env : CodecEnv) (s : EngineState)
    (a r : String) (ip : Option String) (now : Nat) (c : TokenClaims)
    (rr : RefreshToken)
    (hc : verify_token env a "access" now = some c)
    (hmem : rr ∈ s.tokens) (hr : rr.token = r) (hown : rr.user_id ≠ c.sub)
    (hnd : (s.tokens.map RefreshToken.token).Nodup) :
    (logout_user env s a (some r) ip now).1.success = true ∧
    (∃ x ∈ (logout_user env s a (some r) ip now).2.tokens,
        x.token = r ∧ x.is_revoked = true) ∧
    get_refresh_token (logout_user env s a (some r) ip now).2.tokens r now = none := by
  have hall := revoke_all_of_nodup s.tokens r hnd
  obtain ⟨x, hx, hxt⟩ := revoke_exists_token s.tokens r r ⟨rr, hmem, hr⟩
  refine ⟨?_, ⟨x, ?_, hxt, hall x hx hxt⟩, ?_⟩
  · simp [logout_user, hc]
  · simp only [logout_user, hc]
    exact hx
  · simp only [logout_user, hc]
    exact lookup_none_of_all_revoked _ r now hall

/-- Witness for `logout_ignores_ownership`: the acting user is `"u1"` via
access token `"at1"`, while the revoked row `orphanRow` belongs to `"u9"`. -/
theorem logout_ignores_ownership_witness :
    (logout_user sampleEnv orphanState "at1" (some "rtOrph") none 20).1.success = true ∧
    (∃ x ∈ (logout_user sampleEnv orphanState "at1" (some "rtOrph") none 20).2.tokens,
        x.token = "rtOrph" ∧ x.is_revoked = true) ∧
    get_refresh_token
      (logout_user sampleEnv orphanState "at1" (some "rtOrph") none 20).2.tokens
      "rtOrph" 20 = none :=
  logout_ignores_ownership sampleEnv orphanState "at1" "rtOrph" none 20
    { sub := "u1", kind := "access", exp := 600 } orphanRow
    (by decide) (by decide) (by decide) (by decide) (by decide)

end RodaAuth
